import Mathlib

/-!
Verification of the medicine-tracker scheduling and analytics core.

The JavaScript route handlers are shallowly embedded here:
* JS numbers are modelled as `ℚ` (weights, adherence rates) or `Int`
  (millisecond timestamps, as returned by `Date.getTime()`).
* JS `null`/`undefined` is modelled with `Option`; JS truthiness checks on
  numeric/optional fields are modelled by explicit helper functions.
* An ISO-timestamp's calendar-date prefix (`s.split('T')[0]`) is modelled by
  the UTC day index of the millisecond timestamp.
-/

namespace MedTracker

/-! ## Unit conversion — `convertWeight`, src/medtracker-be/routes/weights.js lines 79-101 -/

/-- Models `String.toLowerCase()` applied to a unit token (character-wise
`Char.toLower` over the string's characters). -/
def lower (s : String) : String := String.mk (s.data.map Char.toLower)

/-- Factor `1 lb = 0.453592 kg` (weights.js line 88). -/
def kgPerLb : ℚ := 453592 / 1000000

/-- Factor `1 kg = 2.20462 lbs` (weights.js line 97). -/
def lbsPerKg : ℚ := 220462 / 100000

/-- First half of `convertWeight`: convert to kg, `none` models the early
`return weight` for an unknown source unit (weights.js lines 84-91). -/
def toKg (weight : ℚ) (nf : String) : Option ℚ :=
  if nf = "kg" then some weight
  else if nf = "lbs" ∨ nf = "pounds" then some (weight * kgPerLb)
  else none

/-- Second half of `convertWeight`: kg to target unit; an unknown target
returns the kg intermediate (weights.js lines 94-100). -/
def fromKg (weightInKg : ℚ) (nt : String) : ℚ :=
  if nt = "kg" then weightInKg
  else if nt = "lbs" ∨ nt = "pounds" then weightInKg * lbsPerKg
  else weightInKg

/-- Models `convertWeight(weight, fromUnit, toUnit)` (weights.js lines 79-101). -/
def convertWeight (weight : ℚ) (fromUnit toUnit : String) : ℚ :=
  match toKg weight (lower fromUnit) with
  | none => weight
  | some weightInKg => fromKg weightInKg (lower toUnit)

/-- A unit token the converter recognises after lowercasing. -/
def recognizedUnit (u : String) : Prop := u = "kg" ∨ u = "lbs" ∨ u = "pounds"

instance (u : String) : Decidable (recognizedUnit u) := by
  unfold recognizedUnit; infer_instance

/-! ## Next dose — `GET /api/medicines/:id/next-dose`, weights.js lines 1898-1986 -/

/-- A row of the `medicines` table as used by the next-dose route. -/
structure Medicine where
  id : Nat
  name : String
  dose : String
  schedule_type : String
  interval_minutes : Option Int
  interval_days : Option Int
  meal_timing : List String
deriving DecidableEq

/-- JS truthiness of a nullable numeric column (`null`/`undefined`/`0` are
falsy). -/
def optTruthy : Option Int → Bool
  | none => false
  | some n => n != 0

/-- The `nextDose` object in the route response: `{}` when neither schedule
branch applies, otherwise the interval or meal-based payload
(weights.js lines 1932-1966). -/
inductive NextDoseInfo where
  | empty
  | interval (nextDoseAt : Int) (intervalMinutes : Int) (intervalDays : Option Int)
      (lastDoseAt : Option Int) (isOverdue : Bool)
  | mealBased (mealTiming : List String) (instructions : String) (lastDoseAt : Option Int)
deriving DecidableEq

/-- The next-dose computation. `lastLog` is the `taken_at` of the most recent
log for the medicine (or `none` when the store returned no row); `now` is the
current time in ms. -/
def nextDose (m : Medicine) (lastLog : Option Int) (now : Int) : NextDoseInfo :=
  if m.schedule_type == "interval" && optTruthy m.interval_minutes then
    match lastLog with
    | some takenAt =>
        let nextD := takenAt + m.interval_minutes.getD 0 * 60 * 1000
        .interval nextD (m.interval_minutes.getD 0) m.interval_days (some takenAt)
          (decide (nextD < now))
    | none =>
        .interval now (m.interval_minutes.getD 0) m.interval_days none false
  else if m.schedule_type == "meal_based" then
    .mealBased m.meal_timing "Take as scheduled with meals" lastLog
  else
    .empty

/-! ## Adherence analytics — `GET /api/medicine-logs/analytics/adherence`,
src/unnamed/part_010 lines 560-727 -/

/-- The medicine columns joined onto each log row by the analytics query. -/
structure MedInfo where
  id : Nat
  name : String
  schedule_type : String
  interval_minutes : Option Int
deriving DecidableEq

/-- A `medicine_logs` row (with joined medicine) as consumed by the adherence
analytics route. `taken_at` is in ms. -/
structure ALog where
  medicine_id : Nat
  taken_at : Int
  med : MedInfo
deriving DecidableEq

/-- UTC day index of a ms timestamp; models `log.taken_at.split('T')[0]`,
the calendar-date prefix of the ISO timestamp. -/
def dayKey (t : Int) : Int := t / 86400000

/-- One value of the `medicineStats` accumulator object
(part_010 lines 652-664): per-medicine count plus the set of distinct days,
kept in insertion order like the JS object/Set. -/
structure MedStat where
  medicineId : Nat
  medicineName : String
  scheduleType : String
  intervalMinutes : Option Int
  totalTaken : Nat
  daysActive : List Int
deriving DecidableEq

/-- Processing one log in the `logs.forEach` accumulation
(part_010 lines 648-664): initialise the medicine's stat on first sight,
then bump `totalTaken` and add the day to `daysActive`. -/
def addLog (stats : List MedStat) (l : ALog) : List MedStat :=
  if stats.any (fun s => s.medicineId == l.medicine_id) then
    stats.map (fun s =>
      if s.medicineId == l.medicine_id then
        { s with totalTaken := s.totalTaken + 1,
                 daysActive :=
                   if s.daysActive.contains (dayKey l.taken_at) then s.daysActive
                   else s.daysActive ++ [dayKey l.taken_at] }
      else s)
  else
    stats ++ [{ medicineId := l.medicine_id, medicineName := l.med.name,
                scheduleType := l.med.schedule_type,
                intervalMinutes := l.med.interval_minutes,
                totalTaken := 1, daysActive := [dayKey l.taken_at] }]

/-- The full `medicineStats` accumulation over the fetched logs. -/
def buildStats (logs : List ALog) : List MedStat := List.foldl addLog [] logs

/-- Models `(end - start) / (1000 * 60)` — the window duration in (possibly
fractional) minutes (part_010 line 682). -/
def windowMinutes (start end_ : Int) : ℚ := ((end_ : ℚ) - (start : ℚ)) / (1000 * 60)

/-- Models `Math.ceil((end - start) / (24 * 60 * 60 * 1000))` (part_010 line 675). -/
def totalDaysFor (start end_ : Int) : Int :=
  ⌈((end_ : ℚ) - (start : ℚ)) / (24 * 60 * 60 * 1000)⌉

/-- Computes `expectedDoses` per schedule type (part_010 lines 678-689): interval
medicines use `Math.floor(totalMinutes / intervalMinutes)`, meal-based use
`totalDays * 3`, anything else leaves the initial `0`. -/
def expectedDosesFor (start end_ : Int) (s : MedStat) : Int :=
  if s.scheduleType == "interval" && optTruthy s.intervalMinutes then
    ⌊windowMinutes start end_ / (s.intervalMinutes.getD 0 : ℚ)⌋
  else if s.scheduleType == "meal_based" then
    totalDaysFor start end_ * 3
  else 0

/-- Models `adherenceRate = expectedDoses > 0 ? totalTaken / expectedDoses * 100 : 0`
(the common shape of part_010 lines 684 and 688, with the branch's
`expectedDoses`). -/
def rawRateFor (start end_ : Int) (s : MedStat) : ℚ :=
  let ed := expectedDosesFor start end_ s
  if 0 < ed then (s.totalTaken : ℚ) / (ed : ℚ) * 100 else 0

/-- Models `x.toFixed(1)` on a non-negative number: round to one decimal place,
ties away from zero. -/
def round1 (q : ℚ) : ℚ := (⌊q * 10 + 1 / 2⌋ : ℚ) / 10

/-- The clamp `clamp(q, 0, 100)` as the spec words the adherence-rate rule. -/
def clampRate (q : ℚ) : ℚ := max 0 (min 100 q)

/-- One element of the route's `analytics` array (part_010 lines 691-701). -/
structure AdherenceEntry where
  medicineId : Nat
  medicineName : String
  scheduleType : String
  intervalMinutes : Option Int
  totalTaken : Nat
  expectedDoses : Int
  daysActive : Nat
  totalDays : Int
  adherenceRate : ℚ
deriving DecidableEq

/-- Mapping a `medicineStats` value to its `analytics` entry
(part_010 lines 673-702); `Math.min(100, adherenceRate).toFixed(1)` is the
reported rate. -/
def statToEntry (start end_ : Int) (s : MedStat) : AdherenceEntry :=
  { medicineId := s.medicineId
    medicineName := s.medicineName
    scheduleType := s.scheduleType
    intervalMinutes := s.intervalMinutes
    totalTaken := s.totalTaken
    expectedDoses := expectedDosesFor start end_ s
    daysActive := s.daysActive.length
    totalDays := totalDaysFor start end_
    adherenceRate := round1 (min 100 (rawRateFor start end_ s)) }

/-- Processing one log in the `dailyStats` accumulation
(part_010 lines 666-669). -/
def addDaily (ds : List (Int × Nat)) (l : ALog) : List (Int × Nat) :=
  if ds.any (fun p => p.1 == dayKey l.taken_at) then
    ds.map (fun p => if p.1 == dayKey l.taken_at then (p.1, p.2 + 1) else p)
  else ds ++ [(dayKey l.taken_at, 1)]

/-- The `dailyStats` accumulation over the fetched logs. -/
def buildDaily (logs : List ALog) : List (Int × Nat) := List.foldl addDaily [] logs

/-- Insertion into a day-key-sorted list. -/
def insertByKey (p : Int × Nat) : List (Int × Nat) → List (Int × Nat)
  | [] => [p]
  | q :: qs => if p.1 ≤ q.1 then p :: q :: qs else q :: insertByKey p qs

/-- The route's final `.sort((a, b) => a.date.localeCompare(b.date))` on the
daily stats (part_010 lines 712-715). -/
def sortByKey (l : List (Int × Nat)) : List (Int × Nat) := List.foldr insertByKey [] l

/-- The adherence response body parts the claims are about. -/
structure AdherenceReport where
  analytics : List AdherenceEntry
  dailyStats : List (Int × Nat)
deriving DecidableEq

/-- The adherence analytics computation (part_010 lines 611-716): the store
query keeps logs with `start ≤ taken_at ≤ end` (`gte`/`lte`) and optionally a
single medicine (`eq`), then the route aggregates per medicine and per day. -/
def adherence (start end_ : Int) (medFilter : Option Nat) (logs : List ALog) :
    AdherenceReport :=
  let logsW := (logs.filter fun l =>
      decide (start ≤ l.taken_at) && decide (l.taken_at ≤ end_)).filter fun l =>
    match medFilter with
    | none => true
    | some mid => l.medicine_id == mid
  { analytics := (buildStats logsW).map (statToEntry start end_)
    dailyStats := sortByKey (buildDaily logsW) }

/-! ## Weight trends — `GET /api/weights/analytics/trends`,
weights.js lines 639-794 -/

/-- A `weight_logs` row as used by the trends route. -/
structure WRow where
  weight : ℚ
  unit : String
  measured_at : Int
deriving DecidableEq

/-- The `analytics` object of the trends response (unrounded values; the JSON
serialisation additionally applies `toFixed(2)` to the numeric fields, which
does not feed back into `trend`). -/
structure TrendAnalytics where
  totalEntries : Nat
  firstWeight : ℚ
  lastWeight : ℚ
  weightChange : ℚ
  averageWeight : ℚ
  trend : String
deriving DecidableEq

/-- The trend classification (weights.js lines 727-730): `stable` unless
`|weightChange| > 0.5`, in which case the sign decides
increasing/decreasing. -/
def trendClass (weightChange : ℚ) : String :=
  if |weightChange| > 1 / 2 then
    if weightChange > 0 then "increasing" else "decreasing"
  else "stable"

/-- The trend computation (weights.js lines 694-730): the empty case returns
the `no_data` report; otherwise every weight is converted to the display unit
and `weightChange = lastWeight - firstWeight`. -/
def weightTrend (ws : List WRow) (displayUnit : String) : TrendAnalytics :=
  if ws.isEmpty then
    { totalEntries := 0, firstWeight := 0, lastWeight := 0,
      weightChange := 0, averageWeight := 0, trend := "no_data" }
  else
    let weightValues := ws.map fun w => convertWeight w.weight w.unit displayUnit
    let firstWeight := weightValues.headD 0
    let lastWeight := weightValues.getLastD 0
    let weightChange := lastWeight - firstWeight
    let averageWeight := weightValues.foldl (· + ·) 0 / (weightValues.length : ℚ)
    { totalEntries := ws.length
      firstWeight := firstWeight
      lastWeight := lastWeight
      weightChange := weightChange
      averageWeight := averageWeight
      trend := trendClass weightChange }

/-! ## Medicine validation — `validateMedicine`, weights.js lines 1380-1457
(final version) -/

/-- Models `name.trim()`: strip leading and trailing whitespace. -/
def jsTrim (s : String) : String :=
  String.mk (((s.data.dropWhile Char.isWhitespace).reverse.dropWhile
    Char.isWhitespace).reverse)

/-- The validator's input object; absent JS fields are `none`. -/
structure MedicineInput where
  name : Option String
  dose : Option String
  scheduleType : Option String
  intervalMinutes : Option Int
  intervalDays : Option Int
  mealTiming : Option (List String)
  instructions : Option String
  notes : Option String
deriving DecidableEq

/-- Name checks (weights.js lines 1394-1400); `!name` covers the absent and
empty-string cases, the latter also caught by the zero trimmed length. -/
def nameErrors : Option String → List String
  | none => ["Medicine name is required"]
  | some s =>
    if (jsTrim s).length = 0 then ["Medicine name is required"]
    else if (jsTrim s).length < 2 then
      ["Medicine name must be at least 2 characters long"]
    else if (jsTrim s).length > 100 then
      ["Medicine name must be less than 100 characters"]
    else []

/-- Dose checks (weights.js lines 1402-1406). -/
def doseErrors : Option String → List String
  | none => ["Dose information is required"]
  | some s =>
    if (jsTrim s).length = 0 then ["Dose information is required"]
    else if (jsTrim s).length > 50 then ["Dose must be less than 50 characters"]
    else []

/-- Schedule-type check (weights.js lines 1409-1412); `!scheduleType` and a
value outside the enum produce the same message. -/
def scheduleTypeErrors : Option String → List String
  | none => ["Schedule type must be one of: interval, meal_based"]
  | some s =>
    if s = "interval" ∨ s = "meal_based" then []
    else ["Schedule type must be one of: interval, meal_based"]

/-- Interval-schedule checks (weights.js lines 1415-1426); `!intervalMinutes`
makes `0` fall into the non-positive error. -/
def intervalErrors (st : Option String) (im intervalDays : Option Int) :
    List String :=
  if st = some "interval" then
    (match im with
     | none => ["Interval minutes must be a positive number for interval-based schedules"]
     | some n =>
       if n ≤ 0 then
         ["Interval minutes must be a positive number for interval-based schedules"]
       else if n > 43200 then
         ["Interval minutes cannot exceed 30 days (43200 minutes)"]
       else []) ++
    (match intervalDays with
     | none => []
     | some d => if d ≤ 0 then ["Interval days must be a positive number if specified"] else [])
  else []

/-- The fixed meal-timing enum (weights.js line 1433). -/
def validMealTimings : List String := ["before_meal", "after_meal", "with_meal"]

/-- Meal-based-schedule checks (weights.js lines 1429-1445): required
non-empty array, per-position enum check, length cap of 5. -/
def mealErrors (st : Option String) (mt : Option (List String)) : List String :=
  if st = some "meal_based" then
    match mt with
    | none => ["Meal timing is required for meal-based schedules"]
    | some l =>
      if l.length = 0 then ["Meal timing is required for meal-based schedules"]
      else
        (l.enum.filterMap fun p =>
          if validMealTimings.contains p.2 then none
          else some ("Invalid meal timing at position " ++ toString (p.1 + 1) ++
            ". Must be one of: before_meal, after_meal, with_meal")) ++
        (if l.length > 5 then ["Maximum 5 meal timings allowed"] else [])
  else []

/-- Optional-free-text cap (weights.js lines 1448-1454); the empty string is
falsy but has length 0, so the length test alone is equivalent. -/
def lenErrors (o : Option String) (cap : Nat) (msg : String) : List String :=
  match o with
  | none => []
  | some s => if cap < s.length then [msg] else []

/-- Models `validateMedicine` (weights.js lines 1380-1457): all violations are
collected in push order; `isValid` is `errors = []`. -/
def validateMedicine (i : MedicineInput) : List String :=
  nameErrors i.name ++ doseErrors i.dose ++ scheduleTypeErrors i.scheduleType ++
  intervalErrors i.scheduleType i.intervalMinutes i.intervalDays ++
  mealErrors i.scheduleType i.mealTiming ++
  lenErrors i.instructions 500 "Instructions must be less than 500 characters" ++
  lenErrors i.notes 500 "Notes must be less than 500 characters"

/-! ## Creating a medicine log — `POST /api/medicine-logs`
(src/unnamed/part_010 lines 290-403 and
src/medtracker-be/routes/medicineLogs.js lines 287-387) -/

/-- A `medicine_logs` row as relevant to duplicate detection. -/
structure LogRow where
  user_id : Nat
  medicine_id : Nat
  taken_at : Int
deriving DecidableEq

/-- A `medicines` row as relevant to the ownership check. -/
structure MedRow where
  id : Nat
  user_id : Nat
deriving DecidableEq

/-- The possible outcomes of the POST handler: 400 validation error,
404 medicine not found, 409 duplicate entry, 201 created. -/
inductive CreateResult where
  | validationError (errors : List String)
  | medicineNotFound
  | duplicateEntry (count : Nat)
  | created (row : LogRow)
deriving DecidableEq

/-- Models `validateMedicineLog` of part_010 (lines 26-57). The route always passes a
non-empty `logTime` string, so the `if (takenAt)` guard is always taken; the
`isNaN` branch concerns unparseable strings, outside the integer-timestamp
model. -/
def validateMedicineLogFinal (medicineId : Option Nat) (takenAt : Int)
    (dosageTaken notes : Option String) (now : Int) : List String :=
  (match medicineId with
   | none => ["Medicine ID is required"]
   | some _ => []) ++
  (if now < takenAt then ["Cannot log medicine for future dates"]
   else if takenAt < now - 365 * 24 * 60 * 60 * 1000 then
     ["Cannot log medicine older than 1 year"]
   else []) ++
  (match dosageTaken with
   | none => []
   | some s => if 100 < s.length then ["Dosage taken must be less than 100 characters"] else []) ++
  (match notes with
   | none => []
   | some s => if 500 < s.length then ["Notes must be less than 500 characters"] else [])

/-- Models `validateMedicineLog` of medicineLogs.js (lines 27-60): same checks but
`takenAt` itself is required. -/
def validateMedicineLogV1 (medicineId : Option Nat) (takenAt : Option Int)
    (dosageTaken notes : Option String) (now : Int) : List String :=
  (match medicineId with
   | none => ["Medicine ID is required"]
   | some _ => []) ++
  (match takenAt with
   | none => ["Taken timestamp is required"]
   | some t =>
     if now < t then ["Cannot log medicine for future dates"]
     else if t < now - 365 * 24 * 60 * 60 * 1000 then
       ["Cannot log medicine older than 1 year"]
     else []) ++
  (match dosageTaken with
   | none => []
   | some s => if 100 < s.length then ["Dosage taken must be less than 100 characters"] else []) ++
  (match notes with
   | none => []
   | some s => if 500 < s.length then ["Notes must be less than 500 characters"] else [])

/-- The POST handler of part_010 (lines 290-395): default `logTime` to now,
validate, check medicine ownership, reject when any log of the same medicine
lies within the inclusive ±5-minute window, otherwise insert. Returns the
response together with the resulting log table. The `none` fallback after a
passed validation is unreachable because validation requires `medicineId`. -/
def createLogFinal (state : List LogRow) (medicines : List MedRow) (userId : Nat)
    (medicineId : Option Nat) (takenAt : Option Int)
    (dosageTaken notes : Option String) (now : Int) :
    CreateResult × List LogRow :=
  let logTime := takenAt.getD now
  let errs := validateMedicineLogFinal medicineId logTime dosageTaken notes now
  if errs ≠ [] then (.validationError errs, state)
  else
    match medicineId with
    | none => (.validationError errs, state)
    | some mid =>
      match medicines.find? (fun m => m.id == mid && m.user_id == userId) with
      | none => (.medicineNotFound, state)
      | some _ =>
        let dups := state.filter fun l =>
          l.user_id == userId && l.medicine_id == mid &&
          decide (logTime - 5 * 60 * 1000 ≤ l.taken_at) &&
          decide (l.taken_at ≤ logTime + 5 * 60 * 1000)
        if 0 < dups.length then (.duplicateEntry dups.length, state)
        else
          let row : LogRow := { user_id := userId, medicine_id := mid, taken_at := logTime }
          (.created row, state ++ [row])

/-- The POST handler of medicineLogs.js (lines 287-387): same pipeline but
`takenAt` has no default (validation rejects its absence). -/
def createLogV1 (state : List LogRow) (medicines : List MedRow) (userId : Nat)
    (medicineId : Option Nat) (takenAt : Option Int)
    (dosageTaken notes : Option String) (now : Int) :
    CreateResult × List LogRow :=
  let errs := validateMedicineLogV1 medicineId takenAt dosageTaken notes now
  if errs ≠ [] then (.validationError errs, state)
  else
    match medicineId, takenAt with
    | some mid, some logTime =>
      match medicines.find? (fun m => m.id == mid && m.user_id == userId) with
      | none => (.medicineNotFound, state)
      | some _ =>
        let dups := state.filter fun l =>
          l.user_id == userId && l.medicine_id == mid &&
          decide (logTime - 5 * 60 * 1000 ≤ l.taken_at) &&
          decide (l.taken_at ≤ logTime + 5 * 60 * 1000)
        if 0 < dups.length then (.duplicateEntry dups.length, state)
        else
          let row : LogRow := { user_id := userId, medicine_id := mid, taken_at := logTime }
          (.created row, state ++ [row])
    | _, _ => (.validationError errs, state)

/-! ## Theorems -/

/-- For the round-trip kg → lbs → kg, the converter multiplies by the two
literal factors. -/
theorem convertWeight_kg_lbs_kg (w : ℚ) :
    convertWeight (convertWeight w "kg" "lbs") "lbs" "kg" =
      w * (220462 / 100000) * (453592 / 1000000) := rfl

/-- C3 (counterexample): the round-trip error is proportional to `w`
(`w * 2.00496e-6`), so at the valid weight `w = 1000` kg it is
`0.00200496 > 1e-3`; the claim's universally quantified 1e-3 bound fails. -/
theorem convertWeight_roundtrip_cex :
    ¬ |convertWeight (convertWeight 1000 "kg" "lbs") "lbs" "kg" - 1000| ≤ 1 / 1000 := by
  rw [convertWeight_kg_lbs_kg]
  rw [show (1000 : ℚ) * (220462 / 100000) * (453592 / 1000000) - 1000
      = -(200496 / 100000000) by norm_num]
  rw [abs_neg, abs_of_pos (by norm_num)]
  norm_num

/-- C3 (amended): for `0 < w ≤ 498` the kg → lbs → kg round trip through
`convertWeight` is within `1e-3` of `w` (the error is `w * 200496e-11`, which
stays below `1e-3` exactly up to `w = 498`). -/
theorem convertWeight_roundtrip (w : ℚ) (h0 : 0 < w) (hmax : w ≤ 498) :
    |convertWeight (convertWeight w "kg" "lbs") "lbs" "kg" - w| ≤ 1 / 1000 := by
  rw [convertWeight_kg_lbs_kg, abs_le]
  constructor <;> nlinarith

/-- Witness for `convertWeight_roundtrip` at `w = 70`. -/
theorem convertWeight_roundtrip_wit :
    (0 : ℚ) < 70 ∧ (70 : ℚ) ≤ 498 ∧
      |convertWeight (convertWeight 70 "kg" "lbs") "lbs" "kg" - 70| ≤ 1 / 1000 :=
  ⟨by norm_num, by norm_num, convertWeight_roundtrip 70 (by norm_num) (by norm_num)⟩

/-- C7 (counterexample): with the known source unit `lbs` and the unknown
target unit `stone`, `convertWeight` returns the kg intermediate
`w * 0.453592`, not the input value, so the pass-through claim fails. -/
theorem convertWeight_passthrough_cex :
    ¬ recognizedUnit (lower "stone") ∧ convertWeight 1 "lbs" "stone" ≠ 1 := by
  refine ⟨by decide, ?_⟩
  rw [show convertWeight (1 : ℚ) "lbs" "stone" = 1 * (453592 / 1000000) from rfl]
  norm_num

/-- C7 (amended): an unknown source unit passes the value through unchanged
regardless of the target; an unknown target unit returns the kg intermediate,
which equals the input only when the source is kg — for source lbs/pounds it
is `w * 0.453592`. -/
theorem convertWeight_passthrough (w : ℚ) (fromUnit toUnit : String) :
    (¬ recognizedUnit (lower fromUnit) → convertWeight w fromUnit toUnit = w) ∧
    (lower fromUnit = "kg" → ¬ recognizedUnit (lower toUnit) →
      convertWeight w fromUnit toUnit = w) ∧
    ((lower fromUnit = "lbs" ∨ lower fromUnit = "pounds") →
      ¬ recognizedUnit (lower toUnit) →
      convertWeight w fromUnit toUnit = w * (453592 / 1000000)) := by
  refine ⟨?_, ?_, ?_⟩
  · intro h
    simp only [recognizedUnit, not_or] at h
    simp [convertWeight, toKg, h.1, h.2.1, h.2.2]
  · intro hkg h
    simp only [recognizedUnit, not_or] at h
    simp [convertWeight, toKg, fromKg, hkg, h.1, h.2.1, h.2.2]
  · rintro (hl | hl) h <;>
      (simp only [recognizedUnit, not_or] at h
       simp [convertWeight, toKg, fromKg, hl, h.1, h.2.1, h.2.2, kgPerLb])

/-- Witness for `convertWeight_passthrough`: unknown source passes through,
kg-source with unknown target passes through, lbs-source with unknown target
returns the kg intermediate. -/
theorem convertWeight_passthrough_wit :
    (¬ recognizedUnit (lower "stone") ∧ convertWeight (2 : ℚ) "stone" "kg" = 2) ∧
    (lower "kg" = "kg" ∧ convertWeight (2 : ℚ) "kg" "stone" = 2) ∧
    ((lower "lbs" = "lbs" ∨ lower "lbs" = "pounds") ∧
      convertWeight (2 : ℚ) "lbs" "stone" = 2 * (453592 / 1000000)) :=
  ⟨⟨by decide, (convertWeight_passthrough 2 "stone" "kg").1 (by decide)⟩,
   ⟨by decide, (convertWeight_passthrough 2 "kg" "stone").2.1 (by decide) (by decide)⟩,
   ⟨Or.inl (by decide),
    (convertWeight_passthrough 2 "lbs" "stone").2.2 (Or.inl (by decide)) (by decide)⟩⟩

/-- C10: same-unit conversion is the exact identity only for kilograms; for
lbs and pounds the value is routed through the canonical kg intermediate,
giving `w * 0.453592 * 2.20462 ≠ w` for every `w ≠ 0`. -/
theorem convertWeight_same_unit (w : ℚ) :
    convertWeight w "kg" "kg" = w ∧
    ∀ u : String, (u = "lbs" ∨ u = "pounds") →
      convertWeight w u u = w * (453592 / 1000000) * (220462 / 100000) ∧
      (w ≠ 0 → convertWeight w u u ≠ w) := by
  refine ⟨rfl, ?_⟩
  have key : ∀ v : ℚ, v ≠ 0 →
      v * (453592 / 1000000) * (220462 / 100000) ≠ v := by
    intro v hv heq
    have h1 : v * ((453592 / 1000000 : ℚ) * (220462 / 100000) - 1) = 0 := by
      linear_combination heq
    rcases mul_eq_zero.mp h1 with h | h
    · exact hv h
    · norm_num at h
  rintro u (rfl | rfl)
  · exact ⟨rfl, fun hv => key w hv⟩
  · exact ⟨rfl, fun hv => key w hv⟩

/-- Witness for `convertWeight_same_unit` at `w = 1`, `u = "lbs"`. -/
theorem convertWeight_same_unit_wit :
    convertWeight (1 : ℚ) "kg" "kg" = 1 ∧
    convertWeight (1 : ℚ) "lbs" "lbs" = 1 * (453592 / 1000000) * (220462 / 100000) ∧
    convertWeight (1 : ℚ) "lbs" "lbs" ≠ 1 :=
  ⟨(convertWeight_same_unit 1).1,
   ((convertWeight_same_unit 1).2 "lbs" (Or.inl rfl)).1,
   ((convertWeight_same_unit 1).2 "lbs" (Or.inl rfl)).2 one_ne_zero⟩

/-- C1: for a medicine with an interval schedule (schedule type `interval`,
`interval_minutes` populated and positive): with a most recent log at `t`,
`nextDoseAt = t + intervalMinutes` minutes, `lastDoseAt = t`, and `isOverdue`
holds exactly when `nextDoseAt` is earlier than `now`; with no log,
`nextDoseAt = now`, `isOverdue = false`, and `lastDoseAt` is absent. -/
theorem nextDose_interval_spec (m : Medicine) (im now : Int)
    (hs : m.schedule_type = "interval") (him : m.interval_minutes = some im)
    (hpos : 0 < im) :
    (∀ t : Int, nextDose m (some t) now =
      .interval (t + im * 60 * 1000) im m.interval_days (some t)
        (decide (t + im * 60 * 1000 < now))) ∧
    nextDose m none now = .interval now im m.interval_days none false := by
  have htr : (m.schedule_type == "interval" && optTruthy m.interval_minutes) = true := by
    simp [hs, him, optTruthy, hpos.ne']
  constructor
  · intro t
    unfold nextDose
    rw [if_pos htr]
    simp [him]
  · unfold nextDose
    rw [if_pos htr]
    simp [him]

/-- Witness for `nextDose_interval_spec`: an 8-hour (480-minute) medicine,
last dose at time 0, now = 100 ms. -/
theorem nextDose_interval_spec_wit :
    (⟨1, "a", "d", "interval", some 480, none, []⟩ : Medicine).schedule_type = "interval" ∧
    (0 : Int) < 480 ∧
    nextDose ⟨1, "a", "d", "interval", some 480, none, []⟩ (some 0) 100 =
      .interval (0 + 480 * 60 * 1000) 480 none (some 0)
        (decide ((0 : Int) + 480 * 60 * 1000 < 100)) ∧
    nextDose ⟨1, "a", "d", "interval", some 480, none, []⟩ none 100 =
      .interval 100 480 none none false := by
  have h := nextDose_interval_spec ⟨1, "a", "d", "interval", some 480, none, []⟩
    480 100 rfl rfl (by decide)
  exact ⟨rfl, by decide, h.1 0, h.2⟩

/-- C9: `nextDose` is total over all medicine records; when the schedule type
is neither `interval` with truthy `interval_minutes` nor `meal_based`, it
answers the empty `nextDose` object (the route still responds 200). -/
theorem nextDose_unknown_empty (m : Medicine) (lastLog : Option Int) (now : Int)
    (h1 : ¬(m.schedule_type = "interval" ∧ optTruthy m.interval_minutes = true))
    (h2 : m.schedule_type ≠ "meal_based") :
    nextDose m lastLog now = .empty := by
  unfold nextDose
  rw [if_neg, if_neg]
  · simpa using h2
  · simpa using h1

/-- Witness for `nextDose_unknown_empty`: an `interval`-typed medicine whose
`interval_minutes` is null. -/
theorem nextDose_unknown_empty_wit :
    ¬((("interval" : String) = "interval") ∧ optTruthy none = true) ∧
    ("interval" : String) ≠ "meal_based" ∧
    nextDose ⟨1, "a", "d", "interval", none, none, []⟩ (some 5) 9 = .empty :=
  ⟨by decide, by decide,
   nextDose_unknown_empty ⟨1, "a", "d", "interval", none, none, []⟩ (some 5) 9
     (by decide) (by decide)⟩

/-- A change within the 0.5 threshold classifies as stable. -/
theorem trendClass_stable {q : ℚ} (hq : |q| ≤ 1 / 2) : trendClass q = "stable" := by
  unfold trendClass
  rw [if_neg (not_lt.mpr hq)]

/-- A change above 0.5 classifies as increasing. -/
theorem trendClass_increasing {q : ℚ} (hq : 1 / 2 < q) : trendClass q = "increasing" := by
  unfold trendClass
  rw [if_pos (lt_of_lt_of_le hq (le_abs_self q)), if_pos (lt_trans (by norm_num) hq)]

/-- A change below -0.5 classifies as decreasing. -/
theorem trendClass_decreasing {q : ℚ} (hq : q < -(1 / 2)) : trendClass q = "decreasing" := by
  unfold trendClass
  have hneg : q < 0 := lt_trans hq (by norm_num)
  have h1 : 1 / 2 < |q| := by
    rw [abs_of_neg hneg]
    linarith
  rw [if_pos h1, if_neg (not_lt.mpr (le_of_lt hneg))]

/-- Converting every row and then taking the last (with converted default)
equals converting the last row. -/
theorem mapConvert_getLastD (du : String) :
    ∀ (l : List WRow) (d : WRow),
      ((l.map fun w => convertWeight w.weight w.unit du).getLastD
        (convertWeight d.weight d.unit du)) =
      convertWeight (l.getLastD d).weight (l.getLastD d).unit du
  | [], _ => rfl
  | a :: l, d => by
    simp only [List.map_cons, List.getLastD_cons]
    exact mapConvert_getLastD du l a

/-- C4: for a non-empty weight series ordered ascending by measurement time,
`weightChange = lastWeight - firstWeight` with first/last the converted
first/last entries, and the trend is `stable` when `|weightChange| ≤ 0.5`,
`increasing` when `weightChange > 0.5`, `decreasing` when
`weightChange < -0.5`. -/
theorem weightTrend_spec (h : WRow) (t : List WRow) (displayUnit : String)
    (_hsorted : List.Pairwise (fun a b => a.measured_at ≤ b.measured_at) (h :: t))
    (r : TrendAnalytics) (hr : r = weightTrend (h :: t) displayUnit) :
    r.weightChange = r.lastWeight - r.firstWeight ∧
    r.firstWeight = convertWeight h.weight h.unit displayUnit ∧
    r.lastWeight =
      convertWeight ((h :: t).getLastD h).weight ((h :: t).getLastD h).unit displayUnit ∧
    (|r.weightChange| ≤ 1 / 2 → r.trend = "stable") ∧
    (1 / 2 < r.weightChange → r.trend = "increasing") ∧
    (r.weightChange < -(1 / 2) → r.trend = "decreasing") := by
  subst hr
  have hfw : (weightTrend (h :: t) displayUnit).firstWeight =
      convertWeight h.weight h.unit displayUnit := rfl
  have hlw : (weightTrend (h :: t) displayUnit).lastWeight =
      (((h :: t).map fun w => convertWeight w.weight w.unit displayUnit).getLastD 0) := rfl
  have hwc : (weightTrend (h :: t) displayUnit).weightChange =
      (weightTrend (h :: t) displayUnit).lastWeight -
        (weightTrend (h :: t) displayUnit).firstWeight := rfl
  have htr : (weightTrend (h :: t) displayUnit).trend =
      trendClass ((weightTrend (h :: t) displayUnit).weightChange) := rfl
  refine ⟨hwc, hfw, ?_, ?_, ?_, ?_⟩
  · rw [hlw, List.map_cons, List.getLastD_cons, List.getLastD_cons]
    exact mapConvert_getLastD displayUnit t h
  · intro hq
    rw [htr]
    exact trendClass_stable hq
  · intro hq
    rw [htr]
    exact trendClass_increasing hq
  · intro hq
    rw [htr]
    exact trendClass_decreasing hq

/-- Witness for `weightTrend_spec`: series `[68 kg, 70 kg]`, change `2`,
trend increasing. -/
theorem weightTrend_spec_wit :
    List.Pairwise (fun a b => a.measured_at ≤ b.measured_at)
      ([⟨68, "kg", 0⟩, ⟨70, "kg", 1⟩] : List WRow) ∧
    (weightTrend [⟨68, "kg", 0⟩, ⟨70, "kg", 1⟩] "kg").weightChange =
      (weightTrend [⟨68, "kg", 0⟩, ⟨70, "kg", 1⟩] "kg").lastWeight -
        (weightTrend [⟨68, "kg", 0⟩, ⟨70, "kg", 1⟩] "kg").firstWeight ∧
    (weightTrend [⟨68, "kg", 0⟩, ⟨70, "kg", 1⟩] "kg").firstWeight =
      convertWeight 68 "kg" "kg" ∧
    (weightTrend [⟨68, "kg", 0⟩, ⟨70, "kg", 1⟩] "kg").trend = "increasing" := by
  have hp : List.Pairwise (fun a b => a.measured_at ≤ b.measured_at)
      ([⟨68, "kg", 0⟩, ⟨70, "kg", 1⟩] : List WRow) := by
    simp [List.pairwise_cons]
  have h := weightTrend_spec ⟨68, "kg", 0⟩ [⟨70, "kg", 1⟩] "kg" hp _ rfl
  have hchange : (weightTrend [⟨68, "kg", 0⟩, ⟨70, "kg", 1⟩] "kg").weightChange = 2 := by
    rw [show (weightTrend [(⟨68, "kg", 0⟩ : WRow), ⟨70, "kg", 1⟩] "kg").weightChange
        = (70 : ℚ) - 68 from rfl]
    norm_num
  exact ⟨hp, h.1, h.2.1, h.2.2.2.2.1 (by rw [hchange]; norm_num)⟩

/-- Function `addLog` only ever carries existing medicine ids forward or introduces the
processed log's medicine id. -/
theorem addLog_medicineId (stats : List MedStat) (l : ALog) (s : MedStat)
    (hs : s ∈ addLog stats l) :
    (∃ s0 ∈ stats, s0.medicineId = s.medicineId) ∨ s.medicineId = l.medicine_id := by
  unfold addLog at hs
  by_cases h : stats.any (fun s => s.medicineId == l.medicine_id)
  · rw [if_pos h] at hs
    obtain ⟨s0, hs0, rfl⟩ := List.mem_map.mp hs
    refine Or.inl ⟨s0, hs0, ?_⟩
    by_cases hb : (s0.medicineId == l.medicine_id) = true <;> simp [hb]
  · rw [if_neg h] at hs
    rcases List.mem_append.mp hs with h1 | h1
    · exact Or.inl ⟨s, h1, rfl⟩
    · right
      simp only [List.mem_singleton] at h1
      rw [h1]

/-- Every per-medicine stat is anchored by a log with its medicine id. -/
theorem buildStats_source (logs : List ALog) (s : MedStat) (hs : s ∈ buildStats logs) :
    ∃ l ∈ logs, l.medicine_id = s.medicineId := by
  suffices h : ∀ (L : List ALog) (init : List MedStat), s ∈ List.foldl addLog init L →
      (∃ s0 ∈ init, s0.medicineId = s.medicineId) ∨ ∃ l ∈ L, l.medicine_id = s.medicineId by
    rcases h logs [] hs with ⟨s0, h0, _⟩ | hres
    · exact absurd h0 (List.not_mem_nil s0)
    · exact hres
  intro L
  induction L with
  | nil => exact fun init h => Or.inl ⟨s, h, rfl⟩
  | cons a L ih =>
    intro init h
    rcases ih (addLog init a) h with ⟨s0, h0, he⟩ | ⟨l, hl, he⟩
    · rcases addLog_medicineId init a s0 h0 with ⟨s1, h1, he1⟩ | he1
      · exact Or.inl ⟨s1, h1, he1.trans he⟩
      · exact Or.inr ⟨a, List.mem_cons_self a L, by rw [← he1, he]⟩
    · exact Or.inr ⟨l, List.mem_cons_of_mem a hl, he⟩

/-- C6: the adherence report is log-driven: a medicine with no log whose
`taken_at` falls inside `[start, end]` never appears in the per-medicine
`analytics` list, and on an empty log set both `analytics` and `dailyStats`
are empty. -/
theorem adherence_log_driven (start end_ : Int) (mf : Option Nat) (logs : List ALog)
    (mid : Nat)
    (hno : ∀ l ∈ logs, l.medicine_id = mid → ¬(start ≤ l.taken_at ∧ l.taken_at ≤ end_)) :
    (∀ e ∈ (adherence start end_ mf logs).analytics, e.medicineId ≠ mid) ∧
    (adherence start end_ mf []).analytics = [] ∧
    (adherence start end_ mf []).dailyStats = [] := by
  refine ⟨?_, rfl, rfl⟩
  intro e he hemid
  unfold adherence at he
  simp only at he
  obtain ⟨s, hsmem, rfl⟩ := List.mem_map.mp he
  obtain ⟨l, hl, hlid⟩ := buildStats_source _ s hsmem
  have hl1 := List.mem_filter.mp hl
  have hl2 := List.mem_filter.mp hl1.1
  have hw : start ≤ l.taken_at ∧ l.taken_at ≤ end_ := by
    have := hl2.2
    simp only [Bool.and_eq_true, decide_eq_true_eq] at this
    exact this
  have hsid : s.medicineId = mid := hemid
  exact hno l hl2.1 (hlid.trans hsid) hw

/-- Witness for `adherence_log_driven`: one log for medicine 5 in the window,
queried against the absent medicine 99. -/
theorem adherence_log_driven_wit :
    (∀ l ∈ ([⟨5, 50, ⟨5, "m", "interval", some 10⟩⟩] : List ALog),
      l.medicine_id = 99 → ¬((0 : Int) ≤ l.taken_at ∧ l.taken_at ≤ 100)) ∧
    (∀ e ∈ (adherence 0 100 none
        ([⟨5, 50, ⟨5, "m", "interval", some 10⟩⟩] : List ALog)).analytics,
      e.medicineId ≠ 99) ∧
    (adherence 0 100 none ([] : List ALog)).analytics = [] ∧
    (adherence 0 100 none ([] : List ALog)).dailyStats = [] := by
  have hno : ∀ l ∈ ([⟨5, 50, ⟨5, "m", "interval", some 10⟩⟩] : List ALog),
      l.medicine_id = 99 → ¬((0 : Int) ≤ l.taken_at ∧ l.taken_at ≤ 100) := by
    intro l hl
    simp only [List.mem_singleton] at hl
    subst hl
    intro h
    exact absurd h (by decide)
  have h := adherence_log_driven 0 100 none
    ([⟨5, 50, ⟨5, "m", "interval", some 10⟩⟩] : List ALog) 99 hno
  exact ⟨hno, h.1, h.2.1, h.2.2⟩

/-- C2: in the adherence report, every entry's rate is the clamped, 1-decimal
rounded `totalTaken / expectedDoses * 100` when `expectedDoses > 0` and `0`
otherwise; interval medicines expect `floor(windowMinutes / intervalMinutes)`
doses and meal-based medicines expect `ceil(windowDays) * 3`. -/
theorem adherence_rates (start end_ : Int) (mf : Option Nat) (logs : List ALog)
    (e : AdherenceEntry) (he : e ∈ (adherence start end_ mf logs).analytics) :
    (e.adherenceRate =
      if 0 < e.expectedDoses then
        round1 (clampRate ((e.totalTaken : ℚ) / (e.expectedDoses : ℚ) * 100))
      else 0) ∧
    (∀ m : Int, e.scheduleType = "interval" → e.intervalMinutes = some m → 0 < m →
      e.expectedDoses = ⌊(((end_ : ℚ) - (start : ℚ)) / (1000 * 60)) / (m : ℚ)⌋) ∧
    (e.scheduleType = "meal_based" →
      e.expectedDoses = ⌈((end_ : ℚ) - (start : ℚ)) / (24 * 60 * 60 * 1000)⌉ * 3) := by
  unfold adherence at he
  simp only at he
  obtain ⟨s, hsmem, rfl⟩ := List.mem_map.mp he
  have hrate : (statToEntry start end_ s).adherenceRate
      = round1 (min 100 (rawRateFor start end_ s)) := rfl
  have hed : (statToEntry start end_ s).expectedDoses = expectedDosesFor start end_ s := rfl
  have htk : (statToEntry start end_ s).totalTaken = s.totalTaken := rfl
  have hstp : (statToEntry start end_ s).scheduleType = s.scheduleType := rfl
  have himp : (statToEntry start end_ s).intervalMinutes = s.intervalMinutes := rfl
  have hraw : rawRateFor start end_ s =
      if 0 < expectedDosesFor start end_ s then
        (s.totalTaken : ℚ) / ((expectedDosesFor start end_ s : Int) : ℚ) * 100
      else 0 := rfl
  refine ⟨?_, ?_, ?_⟩
  · rw [hrate, hed, htk, hraw]
    by_cases hpos : 0 < expectedDosesFor start end_ s
    · rw [if_pos hpos, if_pos hpos]
      congr 1
      have h1 : (0 : ℚ) < ((expectedDosesFor start end_ s : Int) : ℚ) := by
        exact_mod_cast hpos
      have hnn : (0 : ℚ) ≤
          (s.totalTaken : ℚ) / ((expectedDosesFor start end_ s : Int) : ℚ) * 100 := by
        positivity
      unfold clampRate
      exact (max_eq_right (le_min (by norm_num) hnn)).symm
    · rw [if_neg hpos, if_neg hpos]
      rw [min_eq_right (by norm_num : (0 : ℚ) ≤ 100)]
      norm_num [round1]
  · intro m hstt himm hm
    rw [hstp] at hstt
    rw [himp] at himm
    rw [hed]
    have hc : (s.scheduleType == "interval" && optTruthy s.intervalMinutes) = true := by
      rw [hstt, himm]
      simp [optTruthy, hm.ne']
    simp only [expectedDosesFor, hc, if_true]
    rw [himm]
    simp [windowMinutes]
  · intro hstt
    rw [hstp] at hstt
    rw [hed]
    have hc1 : (s.scheduleType == "interval" && optTruthy s.intervalMinutes) = false := by
      rw [hstt]
      rfl
    have hc2 : (s.scheduleType == "meal_based") = true := by
      rw [hstt]
      rfl
    simp only [expectedDosesFor, hc1, hc2, Bool.false_eq_true, if_false, if_true]
    rfl

/-- Witness for `adherence_rates`: a 1-minute-interval medicine with one log
in a 1-minute window. -/
theorem adherence_rates_wit :
    (statToEntry 0 60000 ⟨1, "m", "interval", some 1, 1, [0]⟩).scheduleType
      = "interval" ∧
    (0 : Int) < 1 ∧
    (statToEntry 0 60000 ⟨1, "m", "interval", some 1, 1, [0]⟩).expectedDoses =
      ⌊(((60000 : Int) : ℚ) - ((0 : Int) : ℚ)) / (1000 * 60) / ((1 : Int) : ℚ)⌋ ∧
    (statToEntry 0 60000 ⟨1, "m", "interval", some 1, 1, [0]⟩).adherenceRate =
      (if 0 < (statToEntry 0 60000 ⟨1, "m", "interval", some 1, 1, [0]⟩).expectedDoses then
        round1 (clampRate
          (((statToEntry 0 60000 ⟨1, "m", "interval", some 1, 1, [0]⟩).totalTaken : ℚ) /
            ((statToEntry 0 60000 ⟨1, "m", "interval", some 1, 1, [0]⟩).expectedDoses : ℚ)
            * 100))
      else 0) := by
  have hmem : statToEntry 0 60000 ⟨1, "m", "interval", some 1, 1, [0]⟩ ∈
      (adherence 0 60000 none [⟨1, 0, ⟨1, "m", "interval", some 1⟩⟩]).analytics := by
    show statToEntry 0 60000 ⟨1, "m", "interval", some 1, 1, [0]⟩ ∈
      [statToEntry 0 60000 ⟨1, "m", "interval", some 1, 1, [0]⟩]
    exact List.mem_singleton_self _
  have h := adherence_rates 0 60000 none [⟨1, 0, ⟨1, "m", "interval", some 1⟩⟩] _ hmem
  exact ⟨rfl, by decide, h.2.1 1 rfl rfl (by decide), h.1⟩

/-- C5: with an existing log at `T` for the same user and medicine, a valid
create request at `Tnew` with `|Tnew - T|` within the inclusive 5-minute
window is answered with 409 Duplicate Entry and the log table is unchanged,
in both POST implementations. -/
theorem duplicate_log_rejected
    (state : List LogRow) (medicines : List MedRow) (userId mid : Nat)
    (l : LogRow) (T Tnew now : Int) (dosageTaken notes : Option String)
    (hl : l ∈ state) (hlu : l.user_id = userId) (hlm : l.medicine_id = mid)
    (hlt : l.taken_at = T)
    (hnear : |Tnew - T| ≤ 5 * 60 * 1000)
    (hmed : (medicines.find? (fun m => m.id == mid && m.user_id == userId)).isSome = true)
    (hvF : validateMedicineLogFinal (some mid) Tnew dosageTaken notes now = [])
    (hvV : validateMedicineLogV1 (some mid) (some Tnew) dosageTaken notes now = []) :
    (∃ n, 0 < n ∧
      createLogFinal state medicines userId (some mid) (some Tnew) dosageTaken notes now =
        (.duplicateEntry n, state)) ∧
    (∃ n, 0 < n ∧
      createLogV1 state medicines userId (some mid) (some Tnew) dosageTaken notes now =
        (.duplicateEntry n, state)) := by
  obtain ⟨med, hfind⟩ := Option.isSome_iff_exists.mp hmed
  have habs := abs_le.mp hnear
  have hpred : (l.user_id == userId && l.medicine_id == mid &&
      decide (Tnew - 5 * 60 * 1000 ≤ l.taken_at) &&
      decide (l.taken_at ≤ Tnew + 5 * 60 * 1000)) = true := by
    simp only [Bool.and_eq_true, beq_iff_eq, decide_eq_true_eq]
    refine ⟨⟨⟨hlu, hlm⟩, ?_⟩, ?_⟩ <;> rw [hlt] <;> [linarith [habs.1]; linarith [habs.2]]
  have hdup : 0 < (state.filter fun l2 =>
      l2.user_id == userId && l2.medicine_id == mid &&
      decide (Tnew - 5 * 60 * 1000 ≤ l2.taken_at) &&
      decide (l2.taken_at ≤ Tnew + 5 * 60 * 1000)).length :=
    List.length_pos_of_mem (List.mem_filter.mpr ⟨hl, hpred⟩)
  constructor
  · refine ⟨_, hdup, ?_⟩
    simp only [createLogFinal, Option.getD_some]
    rw [hvF]
    simp only [ne_eq, not_true_eq_false, if_false]
    rw [hfind]
    rw [if_pos hdup]
  · refine ⟨_, hdup, ?_⟩
    simp only [createLogV1]
    rw [hvV]
    simp only [ne_eq, not_true_eq_false, if_false]
    rw [hfind]
    rw [if_pos hdup]

/-- Witness for `duplicate_log_rejected`: an existing log 4 minutes before
the new request's timestamp. -/
theorem duplicate_log_rejected_wit :
    (⟨7, 1, 39999000000⟩ : LogRow) ∈ ([⟨7, 1, 39999000000⟩] : List LogRow) ∧
    |(39999240000 : Int) - 39999000000| ≤ 5 * 60 * 1000 ∧
    validateMedicineLogFinal (some 1) 39999240000 none none 40000000000 = [] ∧
    (∃ n, 0 < n ∧
      createLogFinal [⟨7, 1, 39999000000⟩] [⟨1, 7⟩] 7 (some 1) (some 39999240000)
        none none 40000000000 = (.duplicateEntry n, [⟨7, 1, 39999000000⟩])) ∧
    (∃ n, 0 < n ∧
      createLogV1 [⟨7, 1, 39999000000⟩] [⟨1, 7⟩] 7 (some 1) (some 39999240000)
        none none 40000000000 = (.duplicateEntry n, [⟨7, 1, 39999000000⟩])) := by
  have h := duplicate_log_rejected [⟨7, 1, 39999000000⟩] [⟨1, 7⟩] 7 1
    ⟨7, 1, 39999000000⟩ 39999000000 39999240000 40000000000 none none
    (List.mem_singleton_self _) rfl rfl rfl (by decide) (by decide)
    (by decide) (by decide)
  exact ⟨List.mem_singleton_self _, by decide, by decide, h.1, h.2⟩

/-- C8 (counterexample): the one-character name "A" (trimmed length 1, all
other fields valid) is rejected with a name-related message, so names of
length 1 are not accepted. -/
theorem validateMedicine_short_name_cex :
    (jsTrim "A").length = 1 ∧
    validateMedicine ⟨some "A", some "10mg", some "interval", some 60,
        none, none, none, none⟩ =
      ["Medicine name must be at least 2 characters long"] := by
  exact ⟨by decide, by decide⟩

/-- C8 (amended): `validateMedicine` accepts every medicine name of trimmed
length 2 through 100: when the other fields are valid, the full error list is
empty, in particular free of name-related messages. -/
theorem validateMedicine_name_2_to_100 (i : MedicineInput) (s : String)
    (hn : i.name = some s) (h2 : 2 ≤ (jsTrim s).length) (h100 : (jsTrim s).length ≤ 100)
    (hdose : doseErrors i.dose = [])
    (hsched : scheduleTypeErrors i.scheduleType = [])
    (hint : intervalErrors i.scheduleType i.intervalMinutes i.intervalDays = [])
    (hmeal : mealErrors i.scheduleType i.mealTiming = [])
    (hinstr : lenErrors i.instructions 500 "Instructions must be less than 500 characters" = [])
    (hnotes : lenErrors i.notes 500 "Notes must be less than 500 characters" = []) :
    validateMedicine i = [] := by
  have hname : nameErrors i.name = [] := by
    rw [hn]
    simp only [nameErrors]
    rw [if_neg (by omega), if_neg (by omega), if_neg (by omega)]
  unfold validateMedicine
  rw [hname, hdose, hsched, hint, hmeal, hinstr, hnotes]
  rfl

/-- Witness for `validateMedicine_name_2_to_100`: a fully valid
interval-schedule medicine named "Aspirin". -/
theorem validateMedicine_name_2_to_100_wit :
    (⟨some "Aspirin", some "10mg", some "interval", some 60, none, none, none,
        none⟩ : MedicineInput).name = some "Aspirin" ∧
    2 ≤ (jsTrim "Aspirin").length ∧ (jsTrim "Aspirin").length ≤ 100 ∧
    validateMedicine ⟨some "Aspirin", some "10mg", some "interval", some 60,
        none, none, none, none⟩ = [] := by
  refine ⟨rfl, by decide, by decide, ?_⟩
  exact validateMedicine_name_2_to_100
    ⟨some "Aspirin", some "10mg", some "interval", some 60, none, none, none, none⟩
    "Aspirin" rfl (by decide) (by decide) (by decide) (by decide) (by decide)
    (by decide) (by decide) (by decide)

end MedTracker
